import Mathlib

/-!
Shallow embedding of the llm-quiz-analysis repository (FastAPI entry point in
src/main.py, chain orchestration in src/quiz_agent.py, capability
implementations in src/quiz_llm_tools.py) together with theorems settling the
specification claims about it.  Machine integers do not occur in the sources
(Python integers are unbounded), so times and sizes are modelled as Int and
Nat.  External collaborators (the HTTP layer, pandas, BeautifulSoup, the LLM)
are modelled as oracle parameters at the exact call sites where the source
invokes them.
-/

/-! ## Chain orchestration (src/quiz_agent.py) -/

/-- Result dictionary returned by `solve_single_quiz` (src/quiz_agent.py lines
240-252): `success` is the `"success"` key, `text` carries the `"result"`
text on success or the `"error"` text on failure. -/
structure SolveOutcome where
  success : Bool
  text : String
  deriving Repr, DecidableEq

/-- Final state of one run of `solve_quiz_chain` (src/quiz_agent.py lines
254-306): `quiz_count` is the `quiz_count` counter, `solved_urls` lists, in
order, the URLs actually passed to `solve_single_quiz`, `timed_out` records
an exit through the budget check at line 281, `failed` an exit through the
failure check at line 294. -/
structure ChainResult where
  quiz_count : Nat
  solved_urls : List String
  timed_out : Bool
  failed : Bool
  deriving Repr, DecidableEq

/-- `self.quiz_timeout = timedelta(minutes=3)` (src/quiz_agent.py line 38),
in seconds. -/
def quiz_timeout : Int := 180

/-- `max_quizzes = 20` (src/quiz_agent.py line 271). -/
def max_quizzes : Nat := 20

/-- `solve_quiz_chain` (src/quiz_agent.py lines 254-306).  The while loop at
line 276 guards on `current_url` being truthy (non-empty) and
`quiz_count < max_quizzes`; the body increments the counter, performs the
hop-boundary budget check (lines 280-283), invokes `solve_single_quiz`
(line 288), checks for hop failure (line 294), and then reaches the
unconditional `break` at line 300, so every path through the body leaves the
loop during its first iteration; the translation therefore unrolls that one
iteration.  `start_time` models `datetime.now()` at line 268 and
`boundary_time` models `datetime.now()` at line 280, both in seconds; the
`solve` oracle models the single `solve_single_quiz` call. -/
def solve_quiz_chain (start_time boundary_time : Int)
    (solve : String → SolveOutcome) (start_url : String) : ChainResult :=
  if start_url ≠ "" ∧ 0 < max_quizzes then
    let elapsed := boundary_time - start_time
    if elapsed > quiz_timeout then
      { quiz_count := 1, solved_urls := [], timed_out := true, failed := false }
    else
      let result := solve start_url
      if !result.success then
        { quiz_count := 1, solved_urls := [start_url], timed_out := false, failed := true }
      else
        { quiz_count := 1, solved_urls := [start_url], timed_out := false, failed := false }
  else
    { quiz_count := 0, solved_urls := [], timed_out := false, failed := false }

/-- Oracle for the C1 run: `solve_single_quiz` succeeds and its transcript
reports that the submission response carried the next task URL
https://ex.test/quiz2 (the text format produced by `submit_answer_tool`,
src/quiz_llm_tools.py lines 485-491). -/
def nextUrlSolve : String → SolveOutcome := fun _ =>
  { success := true
    text := "Submission result: CORRECT\nNext quiz URL: https://ex.test/quiz2\n" }

/-- C1: the claim says that whenever a submission response contains a `url`
field the orchestrator begins a next hop with exactly that URL, and only a
response without a `url` field terminates the chain.  The code violates this:
in the run below hop 1 succeeds and the submission response carries the next
task URL https://ex.test/quiz2, yet the orchestrator records exactly one hop
and never invokes `solve_single_quiz` on the next URL — the unconditional
`break` at src/quiz_agent.py line 300 terminates the chain loop after the
first hop without ever reading a next URL. -/
theorem chain_stops_despite_next_url :
    (solve_quiz_chain 0 0 nextUrlSolve "https://ex.test/quiz1").solved_urls
        = ["https://ex.test/quiz1"] ∧
    (solve_quiz_chain 0 0 nextUrlSolve "https://ex.test/quiz1").quiz_count = 1 ∧
    "https://ex.test/quiz2" ∉
      (solve_quiz_chain 0 0 nextUrlSolve "https://ex.test/quiz1").solved_urls := by
  refine ⟨rfl, rfl, ?_⟩
  decide

/-- C2: at the one hop boundary of a chain run, if the elapsed time since the
chain start exceeds the 3-minute budget then `solve_single_quiz` is not
invoked at all (no URL is ever handed to it and the run is marked timed out);
and when the boundary check passes, the hop runs to completion and is
recorded no matter what the solver does or how long it takes — the budget is
consulted only at the boundary, never mid-hop. -/
theorem chain_budget_boundary_check (start_time boundary_time : Int)
    (solve : String → SolveOutcome) (start_url : String)
    (hurl : start_url ≠ "") :
    (boundary_time - start_time > quiz_timeout →
      (solve_quiz_chain start_time boundary_time solve start_url).solved_urls = [] ∧
      (solve_quiz_chain start_time boundary_time solve start_url).timed_out = true) ∧
    (boundary_time - start_time ≤ quiz_timeout →
      (solve_quiz_chain start_time boundary_time solve start_url).solved_urls
        = [start_url]) := by
  constructor
  · intro hgt
    unfold solve_quiz_chain
    rw [if_pos ⟨hurl, by decide⟩, if_pos hgt]
    exact ⟨rfl, rfl⟩
  · intro hle
    unfold solve_quiz_chain
    rw [if_pos ⟨hurl, by decide⟩, if_neg (not_lt.mpr hle)]
    by_cases hs : (solve start_url).success
    · simp [hs]
    · simp [hs]

/-- Witness for C2 at a concrete input: chain started at time 0, boundary
check happens at 181 s with a 180 s budget, so no solve call happens; and a
boundary check at 179 s lets the hop run. -/
theorem chain_budget_boundary_check_witness :
    ((181 : Int) - 0 > quiz_timeout ∧
      (solve_quiz_chain 0 181 nextUrlSolve "https://ex.test/quiz1").solved_urls = []) ∧
    ((179 : Int) - 0 ≤ quiz_timeout ∧
      (solve_quiz_chain 0 179 nextUrlSolve "https://ex.test/quiz1").solved_urls
        = ["https://ex.test/quiz1"]) := by
  have h1 := chain_budget_boundary_check 0 181 nextUrlSolve "https://ex.test/quiz1"
    (by decide)
  have h2 := chain_budget_boundary_check 0 179 nextUrlSolve "https://ex.test/quiz1"
    (by decide)
  exact ⟨⟨by decide, (h1.1 (by decide)).1⟩, ⟨by decide, h2.2 (by decide)⟩⟩

/-- C3: the hop counter of a chain run never exceeds 20 (`max_quizzes`),
whatever the clock readings, the solver oracle and the start URL are. -/
theorem chain_hop_count_le_max (start_time boundary_time : Int)
    (solve : String → SolveOutcome) (start_url : String) :
    (solve_quiz_chain start_time boundary_time solve start_url).quiz_count
      ≤ max_quizzes := by
  unfold solve_quiz_chain
  dsimp only
  split
  · split
    · show 1 ≤ max_quizzes
      decide
    · split
      · show 1 ≤ max_quizzes
        decide
      · show 1 ≤ max_quizzes
        decide
  · show 0 ≤ max_quizzes
    decide

/-! ## HTTP entry point (src/main.py) -/

/-- Outcome of running a piece of Python code: either a returned value or an
uncaught exception carrying its message. -/
inductive PyOutcome (α : Type) where
  | ok (a : α)
  | raised (msg : String)
  deriving Repr, DecidableEq

/-- `QuizRequest` (src/main.py lines 44-66): the body of a POST to `/quiz`. -/
structure QuizRequest where
  email : String
  secret : String
  url : String
  deriving Repr, DecidableEq

/-- `QuizResponse` (src/main.py lines 69-74). -/
structure QuizResponse where
  status : String
  message : String
  started_at : String
  email : String
  deriving Repr, DecidableEq

/-- What `handle_quiz` hands back to the HTTP layer: an `HTTPException`
(status code and detail) or the acknowledgement body. -/
inductive HandleResult where
  | httpError (status : Nat) (detail : String)
  | accepted (resp : QuizResponse)
  deriving Repr, DecidableEq

/-- The coroutine spawned by `asyncio.create_task` runs `solve_quiz_chain`,
whose whole body sits inside the try/except at src/quiz_agent.py lines
275-305: any exception the body raises is caught and logged at lines
304-305, and the coroutine returns None either way.  `body` is the outcome
of the un-guarded chain body. -/
def solve_quiz_chain_task (body : PyOutcome ChainResult) : PyOutcome Unit :=
  match body with
  | .ok _ => .ok ()
  | .raised _ => .ok ()

/-- `handle_quiz` (src/main.py lines 118-173).  Returns the value handed to
the caller together with the detached chain task (`none` when no task was
spawned).  `expected_secret` is `EXPECTED_SECRET`, `agent_ready` models
`quiz_agent is not None`, `chainBody` is the oracle outcome of the spawned
chain body, and `now` models `datetime.utcnow().isoformat()`.  The email
comparison against `STUDENT_EMAIL` (lines 137-138) only logs and changes
nothing, so it does not appear in the returned value. -/
def handle_quiz (expected_secret : String) (agent_ready : Bool)
    (chainBody : PyOutcome ChainResult) (req : QuizRequest) (now : String) :
    HandleResult × Option (PyOutcome Unit) :=
  if req.secret ≠ expected_secret then
    (.httpError 403 "Invalid secret. Access denied.", none)
  else if !agent_ready then
    (.httpError 500 "Quiz agent not initialized", none)
  else
    (.accepted { status := "accepted", message := "Quiz solving process started",
                 started_at := now, email := req.email },
     some (solve_quiz_chain_task chainBody))

/-- C8: for every accepted request (secret matches, agent initialized) the
entry point returns the acknowledgement
`{status: "accepted", message, started_at, email}` whose fields depend only
on the request and the clock — the same value for every possible chain
outcome, so the acknowledgement is issued independently of (and before) the
chain completing — and the detached chain task finishes without raising no
matter how the chain body terminates, so no chain-internal outcome or
failure ever reaches the original caller. -/
theorem handle_quiz_ack_detached (expected_secret : String)
    (chainBody : PyOutcome ChainResult) (req : QuizRequest) (now : String)
    (hsecret : req.secret = expected_secret) :
    (handle_quiz expected_secret true chainBody req now).1 =
      .accepted { status := "accepted", message := "Quiz solving process started",
                  started_at := now, email := req.email } ∧
    (handle_quiz expected_secret true chainBody req now).2 = some (.ok ()) := by
  unfold handle_quiz
  rw [if_neg (by simp [hsecret])]
  cases chainBody <;> exact ⟨rfl, rfl⟩

/-- Witness for C8 at a concrete input: a request with the matching secret,
once with a chain body that succeeds and once with one that raises; both
produce the same acknowledgement and a task that completes without raising. -/
theorem handle_quiz_ack_detached_witness :
    ("s3cret" : String) = "s3cret" ∧
    (handle_quiz "s3cret" true
        (.raised "boom")
        { email := "a@b.c", secret := "s3cret", url := "https://ex.test/quiz1" }
        "2026-10-12T00:00:00").1 =
      .accepted { status := "accepted", message := "Quiz solving process started",
                  started_at := "2026-10-12T00:00:00", email := "a@b.c" } ∧
    (handle_quiz "s3cret" true
        (.raised "boom")
        { email := "a@b.c", secret := "s3cret", url := "https://ex.test/quiz1" }
        "2026-10-12T00:00:00").2 = some (.ok ()) := by
  have h := handle_quiz_ack_detached "s3cret" (.raised "boom")
    { email := "a@b.c", secret := "s3cret", url := "https://ex.test/quiz1" }
    "2026-10-12T00:00:00" rfl
  exact ⟨rfl, h.1, h.2⟩

/-! ## JSON values and the serialized size of json.dumps output -/

/-- A JSON value, as produced by Python json.loads / consumed by json.dumps.
Numbers are modelled as unbounded integers (the payloads at issue carry no
fractional literals). -/
inductive Json where
  | null
  | bool (b : Bool)
  | num (n : Int)
  | str (s : String)
  | arr (xs : List Json)
  | obj (kvs : List (String × Json))
  deriving Repr

/-- Number of bytes json.dumps (default settings, ensure_ascii=True)
contributes for one character inside a string literal: `"` and `\` escape to
two bytes, the short control escapes n, t, r, b (0x08), f (0x0C) to two,
remaining control characters to a six-byte u-escape, plain ASCII to one
byte, other basic-plane characters to a six-byte u-escape and astral
characters to a twelve-byte surrogate pair of u-escapes. -/
def charDumpLen (c : Char) : Nat :=
  if c = '"' ∨ c = '\\' then 2
  else if c = '\n' ∨ c = '\t' ∨ c = '\r' ∨ c.toNat = 8 ∨ c.toNat = 12 then 2
  else if c.toNat < 32 then 6
  else if c.toNat < 128 then 1
  else if c.toNat < 65536 then 6
  else 12

/-- Byte length of a json.dumps string literal: two quotes plus the escaped
characters. -/
def strDumpLen (s : String) : Nat :=
  2 + (s.data.map charDumpLen).sum

mutual

/-- Byte length of `json.dumps(v)` with the default separators
(`", "` between items, `": "` after a key). -/
def dumpLen : Json → Nat
  | .null => 4
  | .bool true => 4
  | .bool false => 5
  | .num n => (toString n).length
  | .str s => strDumpLen s
  | .arr xs => 2 + dumpLenList xs + 2 * (xs.length - 1)
  | .obj kvs => 2 + dumpLenKvs kvs + 2 * (kvs.length - 1)

/-- Sum of the serialized lengths of array elements. -/
def dumpLenList : List Json → Nat
  | [] => 0
  | x :: xs => dumpLen x + dumpLenList xs

/-- Sum of the serialized lengths of object entries: serialized key, the
`": "` separator, serialized value. -/
def dumpLenKvs : List (String × Json) → Nat
  | [] => 0
  | (k, v) :: xs => strDumpLen k + 2 + dumpLen v + dumpLenKvs xs

end

/-! ## Answer submission (src/quiz_llm_tools.py, submit_answer_tool) -/

/-- The fields `submit_answer_tool` reads out of its JSON argument with
`params.get` (src/quiz_llm_tools.py lines 442-446); `none` models an absent
key. -/
structure SubmitParams where
  submit_url : Option String
  email : Option String
  secret : Option String
  url : Option String
  answer : Option Json

/-- Python truthiness of an optional string, as used by
`all([submit_url, email, secret, quiz_url])` at line 448: an absent value
and the empty string are falsy. -/
def pyTruthy : Option String → Bool
  | none => false
  | some s => !(s == "")

/-- The wire payload built at src/quiz_llm_tools.py lines 452-457; an absent
answer is `None` in Python and serializes as JSON null. -/
def submissionPayload (p : SubmitParams) : Json :=
  .obj [("email", .str (p.email.getD "")),
        ("secret", .str (p.secret.getD "")),
        ("url", .str (p.url.getD "")),
        ("answer", p.answer.getD .null)]

/-- How far a `submit_answer_tool` invocation gets: a local error return
(one of the `return "Error ..."` statements before the network call), or
the `httpx.post` call at line 470 with the URL and payload it transmits. -/
inductive SubmitResult where
  | localError (msg : String)
  | posted (submit_url : String) (payload : Json)

/-- `submit_answer_tool` (src/quiz_llm_tools.py lines 422-495) up to the
network boundary: the missing-parameter check at lines 448-449, payload
construction at lines 452-457, the serialized-size check at lines 460-464,
then the `httpx.post` transmission at line 470. -/
def submit_answer_tool (p : SubmitParams) : SubmitResult :=
  if !(pyTruthy p.submit_url && pyTruthy p.email && pyTruthy p.secret && pyTruthy p.url) then
    .localError "Error: Missing required submission parameters"
  else
    let payload := submissionPayload p
    let payload_size := dumpLen payload
    if payload_size > 1000000 then
      .localError ("Error: Payload size (" ++ toString payload_size ++
        " bytes) exceeds 1MB limit")
    else
      .posted (p.submit_url.getD "") payload

/-- C4: for every submit-answer invocation that passes the parameter check,
a serialized payload strictly larger than 1,000,000 bytes is rejected with a
descriptive local error before any network call (the result is a local
error, not a post), and a payload of at most 1,000,000 bytes — in
particular exactly 1,000,000 — is transmitted to the submit URL. -/
theorem submit_payload_size_gate (p : SubmitParams)
    (h : (pyTruthy p.submit_url && pyTruthy p.email &&
          pyTruthy p.secret && pyTruthy p.url) = true) :
    (dumpLen (submissionPayload p) > 1000000 →
      submit_answer_tool p =
        .localError ("Error: Payload size (" ++
          toString (dumpLen (submissionPayload p)) ++ " bytes) exceeds 1MB limit")) ∧
    (dumpLen (submissionPayload p) ≤ 1000000 →
      submit_answer_tool p = .posted (p.submit_url.getD "") (submissionPayload p)) := by
  unfold submit_answer_tool
  rw [h]
  constructor
  · intro hgt
    simp only [Bool.not_true, Bool.false_eq_true, if_false, if_pos hgt]
  · intro hle
    simp only [Bool.not_true, Bool.false_eq_true, if_false, if_neg (not_lt.mpr hle)]

/-- A string of `n` copies of a plain ASCII character. -/
def aString (n : Nat) : String := String.mk (List.replicate n 'a')

/-- Concrete submit-answer arguments whose answer is a string of `n`
characters. -/
def bigSubmit (n : Nat) : SubmitParams :=
  { submit_url := some "https://ex.test/submit"
    email := some "a"
    secret := some "b"
    url := some "c"
    answer := some (.str (aString n)) }

theorem charDumpLen_a : charDumpLen 'a' = 1 := by decide

theorem strDumpLen_aString (n : Nat) : strDumpLen (aString n) = 2 + n := by
  simp [aString, strDumpLen, List.map_replicate, List.sum_replicate, charDumpLen_a]

/-- Serialized size of the `bigSubmit n` payload:
`{"email": "a", "secret": "b", "url": "c", "answer": "aa…a"}` weighs
55 + n bytes. -/
theorem bigSubmit_payload_size (n : Nat) :
    dumpLen (submissionPayload (bigSubmit n)) = 55 + n := by
  have hk1 : strDumpLen "email" = 7 := by decide
  have hk2 : strDumpLen "secret" = 8 := by decide
  have hk3 : strDumpLen "url" = 5 := by decide
  have hk4 : strDumpLen "answer" = 8 := by decide
  have hv1 : strDumpLen "a" = 3 := by decide
  have hv2 : strDumpLen "b" = 3 := by decide
  have hv3 : strDumpLen "c" = 3 := by decide
  simp [submissionPayload, bigSubmit, dumpLen, dumpLenKvs, strDumpLen_aString,
    hk1, hk2, hk3, hk4, hv1, hv2, hv3]
  omega

/-- Witness for C4 at concrete inputs: with answer strings of 999,946 and
999,945 characters the serialized payload weighs exactly 1,000,001 and
1,000,000 bytes; the former is rejected locally with the descriptive size
error, the latter is transmitted. -/
theorem submit_payload_size_gate_witness :
    (dumpLen (submissionPayload (bigSubmit 999946)) = 1000001 ∧
     submit_answer_tool (bigSubmit 999946) =
       .localError ("Error: Payload size (" ++
         toString (dumpLen (submissionPayload (bigSubmit 999946))) ++
         " bytes) exceeds 1MB limit")) ∧
    (dumpLen (submissionPayload (bigSubmit 999945)) = 1000000 ∧
     submit_answer_tool (bigSubmit 999945) =
       .posted "https://ex.test/submit" (submissionPayload (bigSubmit 999945))) := by
  have h1 := submit_payload_size_gate (bigSubmit 999946) (by decide)
  have h2 := submit_payload_size_gate (bigSubmit 999945) (by decide)
  have s1 : dumpLen (submissionPayload (bigSubmit 999946)) = 1000001 :=
    bigSubmit_payload_size 999946
  have s2 : dumpLen (submissionPayload (bigSubmit 999945)) = 1000000 :=
    bigSubmit_payload_size 999945
  exact ⟨⟨s1, h1.1 (by omega)⟩, s2, h2.2 (by omega)⟩

/-- C10: if any of submit_url, email, secret or url is absent or empty, the
tool returns the local missing-parameters error and no network call happens;
an absent answer is not checked — with all four fields present and a payload
within the size limit, the submission is posted with the answer serialized
as JSON null. -/
theorem submit_missing_params_check (p : SubmitParams) :
    ((pyTruthy p.submit_url = false ∨ pyTruthy p.email = false ∨
      pyTruthy p.secret = false ∨ pyTruthy p.url = false) →
      submit_answer_tool p =
        .localError "Error: Missing required submission parameters") ∧
    ((pyTruthy p.submit_url && pyTruthy p.email &&
      pyTruthy p.secret && pyTruthy p.url) = true →
      p.answer = none →
      dumpLen (submissionPayload p) ≤ 1000000 →
      submit_answer_tool p =
        .posted (p.submit_url.getD "")
          (.obj [("email", .str (p.email.getD "")),
                 ("secret", .str (p.secret.getD "")),
                 ("url", .str (p.url.getD "")),
                 ("answer", .null)])) := by
  constructor
  · intro hmiss
    unfold submit_answer_tool
    have hfalse : (pyTruthy p.submit_url && pyTruthy p.email &&
        pyTruthy p.secret && pyTruthy p.url) = false := by
      rcases hmiss with h | h | h | h <;> simp [h]
    rw [hfalse]
    simp
  · intro ht hans hle
    have hpost := (submit_payload_size_gate p ht).2 hle
    rw [hpost]
    simp [submissionPayload, hans]

/-- Concrete submit-answer arguments with an empty email field. -/
def missingEmailSubmit : SubmitParams :=
  { submit_url := some "https://ex.test/submit"
    email := some ""
    secret := some "b"
    url := some "c"
    answer := some (.num 42) }

/-- Concrete submit-answer arguments with no answer field at all. -/
def noAnswerSubmit : SubmitParams :=
  { submit_url := some "https://ex.test/submit"
    email := some "a"
    secret := some "b"
    url := some "c"
    answer := none }

/-- Witness for C10 at concrete inputs: an empty email yields the local
missing-parameters error; an absent answer passes the check and is posted
serialized as null. -/
theorem submit_missing_params_check_witness :
    (pyTruthy missingEmailSubmit.email = false ∧
     submit_answer_tool missingEmailSubmit =
       .localError "Error: Missing required submission parameters") ∧
    (noAnswerSubmit.answer = none ∧
     submit_answer_tool noAnswerSubmit =
       .posted "https://ex.test/submit"
         (.obj [("email", .str "a"), ("secret", .str "b"), ("url", .str "c"),
                ("answer", .null)])) := by
  have h1 := (submit_missing_params_check missingEmailSubmit).1
    (Or.inr (Or.inl (by decide)))
  have h2 := (submit_missing_params_check noAnswerSubmit).2 (by decide) rfl (by decide)
  exact ⟨⟨by decide, h1⟩, rfl, h2⟩

/-! ## Capability results and the fetch / analyze capabilities
(src/quiz_llm_tools.py) -/

/-- What a capability returns to the reasoning loop: every tool returns a
plain string, but the source distinguishes normal returns from the explicit
`return "Error ..."` statements of its error paths; `failure` marks the
latter (the failure-flagged textual description of the CapabilityResult
contract). -/
inductive ToolReturn where
  | success (text : String)
  | failure (text : String)
  deriving Repr, DecidableEq

/-- Whether a tool return went through an error path. -/
def ToolReturn.isFailure : ToolReturn → Bool
  | .success _ => false
  | .failure _ => true

/-- An httpx response as far as the tools consume it: status code and body
text. -/
structure HttpResponse where
  status : Nat
  text : String
  deriving Repr, DecidableEq

/-- Body of `fetch_webpage_tool` inside the try block (src/quiz_llm_tools.py
lines 84-94): the `httpx.get` call (an oracle that may raise), the
`raise_for_status` check that raises on status codes at or above 400 with a
library-formatted message `statusErrMsg`, and the
BeautifulSoup/`_extract_clean_text` pipeline (the `clean` oracle). -/
def fetch_webpage_body (net : String → PyOutcome HttpResponse)
    (statusErrMsg : Nat → String) (clean : String → String) (url : String) :
    PyOutcome String :=
  match net url with
  | .raised m => .raised m
  | .ok resp =>
      if 400 ≤ resp.status then .raised (statusErrMsg resp.status)
      else .ok (clean resp.text)

/-- `fetch_webpage_tool` (src/quiz_llm_tools.py lines 72-98): the try/except
wrapper around `fetch_webpage_body`; the except branch at lines 96-98
returns the textual error description instead of re-raising.  The result is
a `PyOutcome` so that propagating an exception to the caller is expressible
— the theorem below shows it never happens. -/
def fetch_webpage_tool (net : String → PyOutcome HttpResponse)
    (statusErrMsg : Nat → String) (clean : String → String) (url : String) :
    PyOutcome ToolReturn :=
  match fetch_webpage_body net statusErrMsg clean url with
  | .ok t => .ok (.success t)
  | .raised m => .ok (.failure ("Error fetching webpage: " ++ m))

/-- The parameter dictionary `analyze_data_tool` reads out of its JSON
argument (src/quiz_llm_tools.py lines 247-251 and 296): `operation`
defaults to `"describe"` and `agg_func` to `"sum"` (`params.get` defaults,
applied by the parse oracle); `column` and `condition` are absent when the
key is missing. -/
structure AnalyzeParams where
  data : String
  operation : String
  column : Option String
  condition : Option String
  agg_func : String
  deriving Repr, DecidableEq

/-- A pandas DataFrame as far as the dispatch logic consumes it: its column
names, row count and emptiness flag; the rendering of pandas results is
delegated to the `PandasOps` oracle. -/
structure DataFrame where
  colNames : List String
  nrows : Nat
  isEmpty : Bool

/-- Oracle for the pandas operations invoked by `analyze_data_tool`
(src/quiz_llm_tools.py lines 278-296), each already rendered through `str`;
column selection and `df.query` may raise (e.g. KeyError on a missing
column), which the except branch of the tool catches. -/
structure PandasOps where
  sumCol : DataFrame → String → PyOutcome String
  meanCol : DataFrame → String → PyOutcome String
  describeStr : DataFrame → String
  columnsStr : DataFrame → String
  headStr : DataFrame → String
  queryStr : DataFrame → String → PyOutcome String
  aggStr : DataFrame → String → PyOutcome String
  defaultSummary : DataFrame → String

/-- The operation names `analyze_data_tool` dispatches on
(src/quiz_llm_tools.py lines 278-296). -/
def supported_operations : List String :=
  ["sum", "mean", "count", "describe", "columns", "head", "filter", "aggregate"]

/-- The operation dispatch of `analyze_data_tool` (src/quiz_llm_tools.py
lines 275-298), including the Python truthiness tests on `column` and
`condition` and the final `else` branch that renders the
shape/columns/head summary. -/
def dispatch_operation (ops : PandasOps) (df : DataFrame) (operation : String)
    (column condition : Option String) (agg_func : String) : PyOutcome String :=
  if operation == "sum" && pyTruthy column then ops.sumCol df (column.getD "")
  else if operation == "mean" && pyTruthy column then ops.meanCol df (column.getD "")
  else if operation == "count" then .ok (toString df.nrows)
  else if operation == "describe" then .ok (ops.describeStr df)
  else if operation == "columns" then .ok (ops.columnsStr df)
  else if operation == "head" then .ok (ops.headStr df)
  else if operation == "filter" && pyTruthy condition then
    ops.queryStr df (condition.getD "")
  else if operation == "aggregate" then ops.aggStr df agg_func
  else .ok (ops.defaultSummary df)

/-- Body of `analyze_data_tool` inside the try block (src/quiz_llm_tools.py
lines 244-301): `parse` models `json.loads` plus the `params.get` reads
(which may raise on malformed JSON), `load` models the format-detection and
pandas-reader block at lines 254-270 (`none` models `df is None`, and
`df.empty` is checked right after), then the operation dispatch runs. -/
def analyze_data_body (parse : String → PyOutcome AnalyzeParams)
    (load : String → PyOutcome (Option DataFrame)) (ops : PandasOps)
    (data_description : String) : PyOutcome ToolReturn :=
  match parse data_description with
  | .raised m => .raised m
  | .ok params =>
    match load params.data with
    | .raised m => .raised m
    | .ok none => .ok (.failure "Error: Could not load data")
    | .ok (some df) =>
      if df.isEmpty then .ok (.failure "Error: Could not load data")
      else
        match dispatch_operation ops df params.operation params.column
            params.condition params.agg_func with
        | .raised m => .raised m
        | .ok s => .ok (.success s)

/-- `analyze_data_tool` (src/quiz_llm_tools.py lines 227-305): the
try/except wrapper around `analyze_data_body`; the except branch at lines
303-305 returns the textual error description instead of re-raising. -/
def analyze_data_tool (parse : String → PyOutcome AnalyzeParams)
    (load : String → PyOutcome (Option DataFrame)) (ops : PandasOps)
    (data_description : String) : PyOutcome ToolReturn :=
  match analyze_data_body parse load ops data_description with
  | .ok r => .ok r
  | .raised m => .ok (.failure ("Error analyzing data: " ++ m))

/-- C6: a capability invocation never propagates a raised exception into the
reasoning loop: for every input and every behavior of the external oracles
(network failures, malformed arguments, unreadable or malformed data, pandas
errors) the wrapped tool hands back a textual result, and an exception
raised inside the tool body becomes a failure-flagged textual description
carrying the error message. -/
theorem capability_errors_become_results
    (net : String → PyOutcome HttpResponse) (statusErrMsg : Nat → String)
    (clean : String → String) (url : String)
    (parse : String → PyOutcome AnalyzeParams)
    (load : String → PyOutcome (Option DataFrame)) (ops : PandasOps)
    (data_description : String) :
    (∃ r, fetch_webpage_tool net statusErrMsg clean url = .ok r) ∧
    (∀ m, fetch_webpage_body net statusErrMsg clean url = .raised m →
      fetch_webpage_tool net statusErrMsg clean url =
        .ok (.failure ("Error fetching webpage: " ++ m))) ∧
    (∃ r, analyze_data_tool parse load ops data_description = .ok r) ∧
    (∀ m, analyze_data_body parse load ops data_description = .raised m →
      analyze_data_tool parse load ops data_description =
        .ok (.failure ("Error analyzing data: " ++ m))) := by
  refine ⟨?_, ?_, ?_, ?_⟩
  · cases h : fetch_webpage_body net statusErrMsg clean url with
    | ok t =>
        exact ⟨.success t, by unfold fetch_webpage_tool; rw [h]⟩
    | raised m =>
        exact ⟨.failure ("Error fetching webpage: " ++ m),
          by unfold fetch_webpage_tool; rw [h]⟩
  · intro m hm
    unfold fetch_webpage_tool
    rw [hm]
  · cases h : analyze_data_body parse load ops data_description with
    | ok r => exact ⟨r, by unfold analyze_data_tool; rw [h]⟩
    | raised m =>
        exact ⟨.failure ("Error analyzing data: " ++ m),
          by unfold analyze_data_tool; rw [h]⟩
  · intro m hm
    unfold analyze_data_tool
    rw [hm]

/-- Network oracle that raises, modelling a connection failure. -/
def raisingNet : String → PyOutcome HttpResponse := fun _ =>
  .raised "Connection refused"

/-- Parse oracle that raises, modelling `json.loads` on a malformed
argument. -/
def raisingParse : String → PyOutcome AnalyzeParams := fun _ =>
  .raised "Expecting value: line 1 column 1 (char 0)"

/-- Concrete pandas oracle with fixed renderings. -/
def constOps : PandasOps :=
  { sumCol := fun _ _ => .ok "3"
    meanCol := fun _ _ => .ok "1.5"
    describeStr := fun _ => "describe table"
    columnsStr := fun _ => "[a, b]"
    headStr := fun _ => "head table"
    queryStr := fun _ _ => .ok "query table"
    aggStr := fun _ _ => .ok "agg table"
    defaultSummary := fun _ => "Data shape: (1, 2)\nColumns: [a, b]\n\nhead table" }

/-- Witness for C6 at concrete inputs: a network failure inside the fetch
body and a malformed argument inside the analyze body both come back as
failure-flagged textual results, never as an exception. -/
theorem capability_errors_become_results_witness :
    fetch_webpage_body raisingNet (fun n => toString n) id "https://ex.test/quiz1" =
      .raised "Connection refused" ∧
    fetch_webpage_tool raisingNet (fun n => toString n) id "https://ex.test/quiz1" =
      .ok (.failure "Error fetching webpage: Connection refused") ∧
    analyze_data_body raisingParse (fun _ => .ok none) constOps "not json" =
      .raised "Expecting value: line 1 column 1 (char 0)" ∧
    analyze_data_tool raisingParse (fun _ => .ok none) constOps "not json" =
      .ok (.failure "Error analyzing data: Expecting value: line 1 column 1 (char 0)") := by
  have h := capability_errors_become_results raisingNet (fun n => toString n) id
    "https://ex.test/quiz1" raisingParse (fun _ => .ok none) constOps "not json"
  refine ⟨rfl, ?_, rfl, ?_⟩
  · have := h.2.1 "Connection refused" rfl
    simpa using this
  · have := h.2.2.2 "Expecting value: line 1 column 1 (char 0)" rfl
    simpa using this

/-- Whether a tool invocation came back as a failure result (a raised
outcome is not a result at all). -/
def PyOutcome.toolFailed : PyOutcome ToolReturn → Bool
  | .ok r => r.isFailure
  | .raised _ => false

/-- Parse oracle for the C5 run: the argument decodes to a request for the
operation "sort" (named in the tool docstring but absent from the dispatch)
over a small CSV. -/
def sortParse : String → PyOutcome AnalyzeParams := fun _ =>
  .ok { data := "a,b\n1,2", operation := "sort", column := none,
        condition := none, agg_func := "sum" }

/-- A loaded, non-empty two-column one-row DataFrame. -/
def smallDf : DataFrame := { colNames := ["a", "b"], nrows := 1, isEmpty := false }

/-- Load oracle for the C5 run: the CSV string loads successfully. -/
def smallLoad : String → PyOutcome (Option DataFrame) := fun _ => .ok (some smallDf)

/-- The JSON argument of the C5 run. -/
def analyzeSortArg : String :=
  "\x7b\"data\": \"a,b\\n1,2\", \"operation\": \"sort\"\x7d"

/-- C5 counterexample: the claim says an invocation whose data loads
successfully but whose operation is not among the supported operations
returns a failure result.  On the code it does not: with the unsupported
operation "sort" over successfully loaded data, the final `else` branch at
src/quiz_llm_tools.py line 297-298 returns the shape/columns/head summary
as a normal success result. -/
theorem analyze_unsupported_op_not_failure :
    "sort" ∉ supported_operations ∧
    smallLoad "a,b\n1,2" = .ok (some smallDf) ∧
    smallDf.isEmpty = false ∧
    analyze_data_tool sortParse smallLoad constOps analyzeSortArg =
      .ok (.success "Data shape: (1, 2)\nColumns: [a, b]\n\nhead table") ∧
    (analyze_data_tool sortParse smallLoad constOps analyzeSortArg).toolFailed
      = false := by
  exact ⟨by decide, rfl, rfl, rfl, rfl⟩

/-- C5 amended: an invocation whose data loads successfully (a non-empty
DataFrame) but whose operation is not among the supported operations
returns a success result carrying the default shape/columns/head summary;
failure results arise only from load failures or raised errors. -/
theorem analyze_unsupported_op_default_summary
    (parse : String → PyOutcome AnalyzeParams)
    (load : String → PyOutcome (Option DataFrame)) (ops : PandasOps)
    (desc : String) (params : AnalyzeParams) (df : DataFrame)
    (hparse : parse desc = .ok params)
    (hload : load params.data = .ok (some df))
    (hne : df.isEmpty = false)
    (hop : params.operation ∉ supported_operations) :
    analyze_data_tool parse load ops desc =
      .ok (.success (ops.defaultSummary df)) := by
  simp only [supported_operations, List.mem_cons, List.not_mem_nil, or_false,
    not_or] at hop
  obtain ⟨h1, h2, h3, h4, h5, h6, h7, h8⟩ := hop
  unfold analyze_data_tool analyze_data_body
  rw [hparse]
  dsimp only
  rw [hload]
  dsimp only
  unfold dispatch_operation
  simp [hne, beq_iff_eq, h1, h2, h3, h4, h5, h6, h7, h8]

/-- Witness for C5 (amended) at the concrete C5 run: operation "sort" over
the successfully loaded small CSV yields the default summary as a success
result. -/
theorem analyze_unsupported_op_default_summary_witness :
    sortParse analyzeSortArg =
      .ok { data := "a,b\n1,2", operation := "sort", column := none,
            condition := none, agg_func := "sum" } ∧
    smallLoad "a,b\n1,2" = .ok (some smallDf) ∧
    smallDf.isEmpty = false ∧
    "sort" ∉ supported_operations ∧
    analyze_data_tool sortParse smallLoad constOps analyzeSortArg =
      .ok (.success (constOps.defaultSummary smallDf)) := by
  refine ⟨rfl, rfl, rfl, by decide, ?_⟩
  exact analyze_unsupported_op_default_summary sortParse smallLoad constOps
    analyzeSortArg
    { data := "a,b\n1,2", operation := "sort", column := none,
      condition := none, agg_func := "sum" }
    smallDf rfl rfl rfl (by decide)

/-! ## Restricted expression evaluation (src/quiz_llm_tools.py,
execute_calculation_tool) -/

/-- A Python value as reachable from an expression handed to `eval`:
numbers, strings, tuples, entries of the whitelist dictionary, and
references into the ambient interpreter object graph (class objects,
modules, bound methods, ...), which exists regardless of the globals and
locals dictionaries passed to `eval`. -/
inductive PyVal where
  | int (n : Int)
  | str (s : String)
  | tuple (xs : List PyVal)
  | whitelisted (name : String)
  | ambient (objId : Nat)
  deriving Repr

/-- The ambient interpreter state `eval` runs inside: attribute lookup on
any value and calls on ambient objects are served by the interpreter
itself, not by the globals/locals dictionaries the caller supplies. -/
structure ObjectGraph where
  attrOf : PyVal → String → Option PyVal
  callOf : Nat → List PyVal → Option PyVal

/-- The fragment of Python expression forms relevant here: literals,
names, tuple displays, attribute access, calls and binary operators. -/
inductive PyExpr where
  | intLit (n : Int)
  | strLit (s : String)
  | name (x : String)
  | tupleLit (xs : List PyExpr)
  | attr (e : PyExpr) (field : String)
  | call (f : PyExpr) (args : List PyExpr)
  | binop (op : String) (a b : PyExpr)
  deriving Repr

mutual

/-- Evaluation of an expression by Python `eval`: names resolve through the
environment built from the globals/locals arguments; attribute access
resolves through the ambient object graph (restricted globals do not
constrain it); calls on whitelist entries go to the `applyFn` oracle, calls
on ambient objects to the graph; binary operators go to the `binOp`
oracle.  `none` models a raised exception. -/
def evalExpr (g : ObjectGraph) (applyFn : String → List PyVal → Option PyVal)
    (binOp : String → PyVal → PyVal → Option PyVal)
    (env : String → Option PyVal) : PyExpr → Option PyVal
  | .intLit n => some (.int n)
  | .strLit s => some (.str s)
  | .name x => env x
  | .tupleLit es =>
      match evalExprList g applyFn binOp env es with
      | none => none
      | some vs => some (.tuple vs)
  | .attr e f =>
      match evalExpr g applyFn binOp env e with
      | none => none
      | some v => g.attrOf v f
  | .call f args =>
      match evalExpr g applyFn binOp env f,
            evalExprList g applyFn binOp env args with
      | some (.whitelisted n), some vs => applyFn n vs
      | some (.ambient i), some vs => g.callOf i vs
      | _, _ => none
  | .binop op a b =>
      match evalExpr g applyFn binOp env a, evalExpr g applyFn binOp env b with
      | some va, some vb => binOp op va vb
      | _, _ => none

/-- Evaluation of a list of argument expressions, left to right. -/
def evalExprList (g : ObjectGraph) (applyFn : String → List PyVal → Option PyVal)
    (binOp : String → PyVal → PyVal → Option PyVal)
    (env : String → Option PyVal) : List PyExpr → Option (List PyVal)
  | [] => some []
  | e :: es =>
      match evalExpr g applyFn binOp env e,
            evalExprList g applyFn binOp env es with
      | some v, some vs => some (v :: vs)
      | _, _ => none

end

mutual

/-- The names an expression mentions (the only points where the
globals/locals dictionaries of `eval` are consulted). -/
def exprNames : PyExpr → List String
  | .intLit _ => []
  | .strLit _ => []
  | .name x => [x]
  | .tupleLit es => exprNamesList es
  | .attr e _ => exprNames e
  | .call f args => exprNames f ++ exprNamesList args
  | .binop _ a b => exprNames a ++ exprNames b

/-- Names mentioned across a list of expressions. -/
def exprNamesList : List PyExpr → List String
  | [] => []
  | e :: es => exprNames e ++ exprNamesList es

end

/-- The keys placed in `allowed_names` at src/quiz_llm_tools.py lines
323-327. -/
def allowed_builtin_names : List String :=
  ["abs", "round", "min", "max", "sum", "len", "int", "float", "pow", "divmod"]

/-- The keys added by the loop over `dir(math)` at src/quiz_llm_tools.py
lines 330-332: the public names of the math module (CPython snapshot). -/
def math_public_names : List String :=
  ["acos", "acosh", "asin", "asinh", "atan", "atan2", "atanh", "cbrt", "ceil",
   "comb", "copysign", "cos", "cosh", "degrees", "dist", "e", "erf", "erfc",
   "exp", "exp2", "expm1", "fabs", "factorial", "floor", "fmod", "frexp",
   "fsum", "gamma", "gcd", "hypot", "inf", "isclose", "isfinite", "isinf",
   "isnan", "isqrt", "lcm", "ldexp", "lgamma", "log", "log10", "log1p",
   "log2", "modf", "nan", "nextafter", "perm", "pi", "prod",
   "radians", "remainder", "sin", "sinh", "sqrt", "tan", "tanh", "tau",
   "trunc", "ulp"]

/-- The name-resolution environment the `eval` call at line 334 sees:
globals `{"__builtins__": {}}` contribute nothing, locals are the
whitelist dictionary. -/
def allowed_names_env : String → Option PyVal := fun x =>
  if x ∈ allowed_builtin_names ∨ x ∈ math_public_names then
    some (.whitelisted x)
  else none

/-- The `eval(expression, {"__builtins__": {}}, allowed_names)` call at
src/quiz_llm_tools.py line 334, at the level of the parsed expression: the
ambient graph `g` is the interpreter state the call runs inside. -/
def execute_calculation_eval (g : ObjectGraph)
    (applyFn : String → List PyVal → Option PyVal)
    (binOp : String → PyVal → PyVal → Option PyVal) (e : PyExpr) :
    Option PyVal :=
  evalExpr g applyFn binOp allowed_names_env e

/-- An ambient interpreter state in which the `__class__` attribute of the
empty tuple is the object with id 0. -/
def graphA : ObjectGraph :=
  { attrOf := fun v f =>
      match v, f with
      | .tuple [], "__class__" => some (.ambient 0)
      | _, _ => none
    callOf := fun _ _ => none }

/-- An ambient interpreter state that differs from `graphA` only outside
the whitelist: the `__class__` attribute of the empty tuple is the object
with id 1. -/
def graphB : ObjectGraph :=
  { attrOf := fun v f =>
      match v, f with
      | .tuple [], "__class__" => some (.ambient 1)
      | _, _ => none
    callOf := fun _ _ => none }

/-- The parsed form of the expression `().__class__` — the first step of
the classic escape `().__class__.__bases__[0].__subclasses__()`. -/
def bypassExpr : PyExpr := .attr (.tupleLit []) "__class__"

/-- C7 (code bug): the claim says the evaluate-expression capability
computes its result from the expression and the closed whitelist alone,
with no access to ambient state.  The `eval` call the code uses does not
guarantee that: the expression `().__class__` mentions no name at all (so
the whitelist and the empty globals are never consulted), yet its value is
read from the ambient interpreter object graph, and two ambient states
that differ only outside the whitelist give different results. -/
theorem execute_calculation_ambient_dependence :
    exprNames bypassExpr = [] ∧
    execute_calculation_eval graphA (fun _ _ => none) (fun _ _ _ => none)
        bypassExpr = some (.ambient 0) ∧
    execute_calculation_eval graphB (fun _ _ => none) (fun _ _ _ => none)
        bypassExpr = some (.ambient 1) ∧
    execute_calculation_eval graphA (fun _ _ => none) (fun _ _ _ => none)
        bypassExpr ≠
      execute_calculation_eval graphB (fun _ _ => none) (fun _ _ _ => none)
        bypassExpr := by
  refine ⟨rfl, rfl, rfl, ?_⟩
  intro h
  have h2 : some (PyVal.ambient 0) = some (PyVal.ambient 1) := h
  simp at h2

/-! ## File download (src/quiz_llm_tools.py, download_file_tool) -/

/-- Python `s.split(sep)` for a one-character separator, over the character
list of the string: splits at every occurrence, keeping empty pieces. -/
def pySplitChar (sep : Char) : List Char → List (List Char)
  | [] => [[]]
  | c :: cs =>
      if c = sep then [] :: pySplitChar sep cs
      else
        match pySplitChar sep cs with
        | [] => [[c]]
        | r :: rs => (c :: r) :: rs

/-- Helper for `pySplitSub`, structurally recursive on a fuel that bounds
the input length (each step consumes at least one character). -/
def pySplitSubAux (sep : List Char) : Nat → List Char → List (List Char)
  | _, [] => [[]]
  | 0, l => [l]
  | fuel + 1, c :: cs =>
      if sep.isPrefixOf (c :: cs) then
        [] :: pySplitSubAux sep fuel (List.drop sep.length (c :: cs))
      else
        match pySplitSubAux sep fuel cs with
        | [] => [[c]]
        | r :: rs => (c :: r) :: rs

/-- Python `s.split(sep)` for a non-empty multi-character separator, over
the character list of the string. -/
def pySplitSub (sep : List Char) (l : List Char) : List (List Char) :=
  pySplitSubAux sep l.length l

/-- Python `s.strip(c)` for the double-quote character: removes every
leading and trailing `"` character. -/
def stripQuotesL (l : List Char) : List Char :=
  ((l.dropWhile (fun c => c = '"')).reverse.dropWhile (fun c => c = '"')).reverse

/-- The local path `download_file_tool` writes to (src/quiz_llm_tools.py
lines 164-177): the filename is the last slash-separated piece of the URL
cut at the first question mark, overridden when the Content-Disposition
header is present and contains `filename=` by the piece after the first
`filename=`, stripped of quotes; the file goes into the shared `downloads`
directory joined under the process working directory `cwd` (from
`os.getcwd()`).  No chain-run identifier enters the path. -/
def download_file_path (cwd : String) (content_disposition : Option String)
    (url : String) : String :=
  let url_piece := (pySplitChar '/' url.data).getLastD []
  let url_filename := (pySplitChar '?' url_piece).headD []
  let filename :=
    match content_disposition with
    | none => url_filename
    | some cd =>
        let parts := pySplitSub "filename=".data cd.data
        if parts.length > 1 then stripQuotesL (parts.getD 1 [])
        else url_filename
  cwd ++ "/downloads/" ++ String.mk filename

/-- C9 (code bug): the claim says downloads are saved to a location
namespaced per chain run so that two concurrently running chains
downloading same-named files never write to the same path.  The code has
no run identifier anywhere in the path: two chains running in the same
process (same working directory) that download differently hosted files
both named data.csv write to the identical path. -/
theorem download_path_not_namespaced :
    download_file_path "/app" none "https://a.test/data.csv" =
      "/app/downloads/data.csv" ∧
    download_file_path "/app" none "https://b.test/data.csv" =
      "/app/downloads/data.csv" ∧
    download_file_path "/app" none "https://a.test/data.csv" =
      download_file_path "/app" none "https://b.test/data.csv" := by
  exact ⟨by decide, by decide, by decide⟩
